import Mathlib

/-
Verification development for the assessment platform's Evaluation and
Integrity Engine (src/core/anti_cheat.py, src/core/evaluator.py,
src/core/llm_client.py, src/config.py).

Embedding conventions:
- Python floats are modelled as rationals (exact arithmetic); every numeric
  literal of the source (0.3, 0.7, 0.85, ...) is the corresponding rational.
- Python strings are Lean Strings; str.upper and str.strip are modelled by
  the structural functions pyUpper and pyStrip below (the source only
  compares ASCII answer letters and program output).
- Python dicts holding heterogeneous JSON are modelled field by field with
  Option for possibly-absent keys; the numeric entries of a flag evidence
  dict are kept as an association list, presentational text entries are not
  modelled.
- Python round(x, n) is modelled as floor(x * 10^n + 1/2) / 10^n; the source
  only rounds presentational copies of values, and no value in any proof
  sits on a half-way tie where the Python float rule could differ.
-/

namespace Assessment

/-- Default config value settings.PLAGIARISM_THRESHOLD (config.py). -/
def PLAGIARISM_THRESHOLD : ℚ := 85 / 100

/-- Default config value settings.MIN_TIME_PER_QUESTION (config.py). -/
def MIN_TIME_PER_QUESTION : ℚ := 5

/-- Python round(x, 2): see the embedding note on rounding above. -/
def round2 (x : ℚ) : ℚ := (⌊x * 100 + 1 / 2⌋ : ℚ) / 100

/-- Python round(x, 1). -/
def round1 (x : ℚ) : ℚ := (⌊x * 10 + 1 / 2⌋ : ℚ) / 10

/-- Python str.upper for the ASCII alphabet (the source compares answer
letters), written structurally so that concrete instances evaluate. -/
def pyCharUpper (c : Char) : Char :=
  if 97 ≤ c.toNat ∧ c.toNat ≤ 122 then Char.ofNat (c.toNat - 32) else c

/-- Python str.upper. -/
def pyUpper (s : String) : String := String.mk (s.data.map pyCharUpper)

/-- Python str.strip: drop whitespace from both ends. -/
def pyStrip (s : String) : String :=
  String.mk (((s.data.dropWhile (fun c => c.isWhitespace)).reverse.dropWhile
    (fun c => c.isWhitespace)).reverse)

/-- CheatFlag (anti_cheat.py lines 36-41).  The description string is
presentational interpolated text and is not modelled; evidence keeps its
numeric entries. -/
structure CheatFlag where
  flag_type : String
  severity : String
  confidence : ℚ
  evidence : List (String × ℚ)
deriving DecidableEq, Repr

/-- severity_penalties.get(flag.severity, 5) in _calculate_integrity_score
(anti_cheat.py line 447-449). -/
def severityPenalty (s : String) : ℚ :=
  if s = "low" then 5
  else if s = "medium" then 10
  else if s = "high" then 20
  else if s = "critical" then 35
  else 5

/-- Position of a severity in the documented total order
low < medium < high < critical; none for an unknown severity string. -/
def severityRank (s : String) : Option ℕ :=
  if s = "low" then some 0
  else if s = "medium" then some 1
  else if s = "high" then some 2
  else if s = "critical" then some 3
  else none

/-- a is a (weakly) lower severity than b in the order low < medium < high <
critical; false when either string is not one of the four severities. -/
def sevLe (a b : String) : Bool :=
  match severityRank a, severityRank b with
  | some i, some j => decide (i ≤ j)
  | _, _ => false

/-- _calculate_integrity_score (anti_cheat.py lines 440-459): start at 100,
subtract a per-severity penalty per flag, subtract (50 - resume_match) * 0.3
when a resume match score below 50 is present, subtract 30 when the
plagiarism score exceeds the configured threshold, clamp to [0, 100].
The timing_score parameter is accepted and unused, as in the source. -/
def calculateIntegrityScore (flags : List CheatFlag) (resume_match : Option ℚ)
    (timing_score plagiarism_score : ℚ) : ℚ :=
  let score : ℚ := 100
  let score := flags.foldl (fun s f => s - severityPenalty f.severity) score
  let score :=
    match resume_match with
    | some rm => if rm < 50 then score - (50 - rm) * (3 / 10) else score
    | none => score
  let score :=
    if plagiarism_score > PLAGIARISM_THRESHOLD then score - 30 else score
  max 0 (min 100 score)

/-- Total severity penalty of a flag list. -/
def flagsPenalty (flags : List CheatFlag) : ℚ :=
  (flags.map (fun f => severityPenalty f.severity)).sum

/-- The resume-mismatch penalty term of _calculate_integrity_score. -/
def resumePenalty (resume_match : Option ℚ) : ℚ :=
  match resume_match with
  | some rm => if rm < 50 then (50 - rm) * (3 / 10) else 0
  | none => 0

/-- The flat plagiarism penalty term of _calculate_integrity_score. -/
def plagiarismPenalty (plagiarism_score : ℚ) : ℚ :=
  if plagiarism_score > PLAGIARISM_THRESHOLD then 30 else 0

lemma foldl_sub_eq (l : List CheatFlag) (a : ℚ) :
    l.foldl (fun s f => s - severityPenalty f.severity) a =
      a - flagsPenalty l := by
  induction l generalizing a with
  | nil => simp [flagsPenalty]
  | cons f t ih =>
      simp only [List.foldl_cons, flagsPenalty, List.map_cons, List.sum_cons]
      rw [ih]
      simp [flagsPenalty]
      ring

lemma calculateIntegrityScore_eq (flags : List CheatFlag) (rm : Option ℚ)
    (ts ps : ℚ) :
    calculateIntegrityScore flags rm ts ps =
      max 0 (min 100
        (100 - flagsPenalty flags - resumePenalty rm - plagiarismPenalty ps)) := by
  unfold calculateIntegrityScore resumePenalty plagiarismPenalty
  dsimp only
  rw [foldl_sub_eq]
  cases rm with
  | none => split_ifs <;> ring_nf
  | some r =>
      by_cases hr : r < 50 <;> by_cases hp : ps > PLAGIARISM_THRESHOLD <;>
        simp only [hr, hp, if_true, if_false] <;> ring_nf

lemma severityPenalty_pos (s : String) : 0 < severityPenalty s := by
  unfold severityPenalty
  split_ifs <;> norm_num

lemma severityPenalty_mono {a b : String} (h : sevLe a b = true) :
    severityPenalty a ≤ severityPenalty b := by
  unfold sevLe at h
  unfold severityRank at h
  unfold severityPenalty
  split_ifs at h ⊢ <;> simp_all <;> norm_num

lemma flagsPenalty_append (l₁ l₂ : List CheatFlag) :
    flagsPenalty (l₁ ++ l₂) = flagsPenalty l₁ + flagsPenalty l₂ := by
  simp [flagsPenalty]

lemma clamp_mono {x y : ℚ} (h : x ≤ y) :
    max 0 (min 100 x) ≤ max 0 (min 100 y) :=
  max_le_max le_rfl (min_le_min le_rfl h)

/-- C1: for every flag list and all numeric inputs, the integrity score lies
in [0, 100]; adding a flag never increases it; and raising one flag's
severity in the order low < medium < high < critical never increases it. -/
theorem integrity_score_range_and_monotone (flags : List CheatFlag)
    (rm : Option ℚ) (ts ps : ℚ) :
    (0 ≤ calculateIntegrityScore flags rm ts ps ∧
      calculateIntegrityScore flags rm ts ps ≤ 100) ∧
    (∀ f : CheatFlag,
      calculateIntegrityScore (f :: flags) rm ts ps ≤
        calculateIntegrityScore flags rm ts ps) ∧
    (∀ (pre post : List CheatFlag) (f : CheatFlag) (s₁ s₂ : String),
      sevLe s₁ s₂ = true →
      calculateIntegrityScore (pre ++ [{ f with severity := s₂ }] ++ post) rm ts ps ≤
        calculateIntegrityScore (pre ++ [{ f with severity := s₁ }] ++ post) rm ts ps) := by
  refine ⟨⟨?_, ?_⟩, ?_, ?_⟩
  · rw [calculateIntegrityScore_eq]; exact le_max_left _ _
  · rw [calculateIntegrityScore_eq]
    exact max_le (by norm_num) (min_le_left _ _)
  · intro f
    rw [calculateIntegrityScore_eq, calculateIntegrityScore_eq]
    apply clamp_mono
    have hf := severityPenalty_pos f.severity
    have : flagsPenalty (f :: flags) = severityPenalty f.severity + flagsPenalty flags := by
      simp [flagsPenalty]
    linarith
  · intro pre post f s₁ s₂ h
    rw [calculateIntegrityScore_eq, calculateIntegrityScore_eq]
    apply clamp_mono
    have hmono := severityPenalty_mono h
    have h₁ : flagsPenalty (pre ++ [{ f with severity := s₁ }] ++ post) =
        flagsPenalty pre + severityPenalty s₁ + flagsPenalty post := by
      rw [flagsPenalty_append, flagsPenalty_append]
      simp [flagsPenalty]
    have h₂ : flagsPenalty (pre ++ [{ f with severity := s₂ }] ++ post) =
        flagsPenalty pre + severityPenalty s₂ + flagsPenalty post := by
      rw [flagsPenalty_append, flagsPenalty_append]
      simp [flagsPenalty]
    linarith

/-- Witness for C1 at concrete inputs: one timing flag raised from low to
medium severity lowers (weakly) the integrity score. -/
theorem integrity_score_range_and_monotone_witness :
    calculateIntegrityScore
        ([] ++ [{ flag_type := "timing_anomaly", severity := "medium",
                  confidence := 17/20, evidence := [] }] ++ []) (some 80) 0 0 ≤
      calculateIntegrityScore
        ([] ++ [{ flag_type := "timing_anomaly", severity := "low",
                  confidence := 17/20, evidence := [] }] ++ []) (some 80) 0 0 :=
  (integrity_score_range_and_monotone [] (some 80) 0 0).2.2 [] []
    { flag_type := "timing_anomaly", severity := "low",
      confidence := 17/20, evidence := [] } "low" "medium" (by decide)

/-- Number of flags of a given severity in a flag list. -/
def countSeverity (flags : List CheatFlag) (s : String) : ℕ :=
  (flags.filter (fun f => f.severity = s)).length

/-- The integrity-score reduction as the spec words it (for claim C2):
start at 100; subtract 5 per low flag, 10 per medium, 20 per high, 35 per
critical; subtract the graduated resume penalty when the resume-match score
is below 50; subtract a flat 30 when the plagiarism score exceeds the
configured threshold; clamp to [0, 100]. -/
def integritySpecFormula (flags : List CheatFlag) (rm : Option ℚ) (ps : ℚ) : ℚ :=
  max 0 (min 100
    (100 - (5 * (countSeverity flags "low" : ℚ)
          + 10 * (countSeverity flags "medium" : ℚ)
          + 20 * (countSeverity flags "high" : ℚ)
          + 35 * (countSeverity flags "critical" : ℚ))
        - resumePenalty rm - plagiarismPenalty ps))

lemma countSeverity_cons (f : CheatFlag) (t : List CheatFlag) (s : String) :
    countSeverity (f :: t) s =
      (if f.severity = s then 1 else 0) + countSeverity t s := by
  unfold countSeverity
  by_cases h : f.severity = s
  · simp [List.filter_cons, h]
    omega
  · simp [List.filter_cons, h]

lemma flagsPenalty_eq_counts (flags : List CheatFlag)
    (h : ∀ f ∈ flags, (severityRank f.severity).isSome = true) :
    flagsPenalty flags =
      5 * (countSeverity flags "low" : ℚ)
        + 10 * (countSeverity flags "medium" : ℚ)
        + 20 * (countSeverity flags "high" : ℚ)
        + 35 * (countSeverity flags "critical" : ℚ) := by
  induction flags with
  | nil => simp [flagsPenalty, countSeverity]
  | cons f t ih =>
      have hf := h f (List.mem_cons_self f t)
      have ht := ih (fun g hg => h g (List.mem_cons_of_mem f hg))
      have hsum : flagsPenalty (f :: t) = severityPenalty f.severity + flagsPenalty t := by
        simp [flagsPenalty]
      have hcases : f.severity = "low" ∨ f.severity = "medium" ∨
          f.severity = "high" ∨ f.severity = "critical" := by
        unfold severityRank at hf
        split_ifs at hf <;> simp_all
      rw [hsum, ht, countSeverity_cons, countSeverity_cons, countSeverity_cons,
        countSeverity_cons]
      rcases hcases with hc | hc | hc | hc <;>
        simp [hc, severityPenalty] <;> ring

/-- C2: under severity strings drawn from the four documented levels, the
integrity score equals the spec formula: 100 minus 5/10/20/35 per
low/medium/high/critical flag, minus the resume penalty, minus the flat
30-point plagiarism penalty, clamped to [0, 100]; and for a resume-match
score in the usual [0, 100] range the resume penalty is linear, between 0
and 15 points. -/
theorem integrity_score_formula (flags : List CheatFlag) (rm : Option ℚ)
    (ts ps : ℚ)
    (hsev : ∀ f ∈ flags, (severityRank f.severity).isSome = true) :
    calculateIntegrityScore flags rm ts ps = integritySpecFormula flags rm ps ∧
    (∀ r : ℚ, rm = some r → 0 ≤ r →
      0 ≤ resumePenalty rm ∧ resumePenalty rm ≤ 15 ∧
      (r < 50 → resumePenalty rm = (50 - r) * (3 / 10))) := by
  constructor
  · rw [calculateIntegrityScore_eq, integritySpecFormula,
      flagsPenalty_eq_counts flags hsev]
  · intro r hr hr0
    subst hr
    simp only [resumePenalty]
    split_ifs with h
    · refine ⟨by nlinarith, by nlinarith, fun _ => rfl⟩
    · exact ⟨le_rfl, by norm_num, fun hc => absurd hc h⟩

/-- Witness for C2 at concrete inputs: one critical flag, resume match 30,
plagiarism 0.9 gives the spec-formula value, and the resume penalty is 6. -/
theorem integrity_score_formula_witness :
    calculateIntegrityScore
        [{ flag_type := "plagiarism", severity := "critical",
           confidence := 9/10, evidence := [] }] (some 30) 0 (9/10) =
      integritySpecFormula
        [{ flag_type := "plagiarism", severity := "critical",
           confidence := 9/10, evidence := [] }] (some 30) (9/10) ∧
    resumePenalty (some 30) = 6 := by
  have h := integrity_score_formula
    [{ flag_type := "plagiarism", severity := "critical",
       confidence := 9/10, evidence := [] }] (some 30) 0 (9/10)
    (by intro f hf; simp at hf; subst hf; decide)
  refine ⟨h.1, ?_⟩
  have h2 := (h.2 30 rfl (by norm_num)).2.2 (by norm_num)
  rw [h2]
  norm_num

/-- is_flagged (anti_cheat.py line 161): some flag has severity high or
critical. -/
def isFlagged (flags : List CheatFlag) : Bool :=
  flags.any (fun f => f.severity == "high" || f.severity == "critical")

/-- The recommendation logic of full_integrity_check (anti_cheat.py lines
162-166), as a function of the flag list and the computed integrity score. -/
def recommendation (flags : List CheatFlag) (integrity_score : ℚ) : String :=
  if isFlagged flags then
    if integrity_score < 30 then "reject" else "review"
  else if integrity_score < 60 then "review"
  else "clear"

/-- C3: the flagged bit is true exactly when some flag has severity high or
critical, and the recommendation is reject when flagged with score < 30,
review when flagged with score ≥ 30, review when not flagged with
score < 60, and clear otherwise — a pure function of the flag list and the
score. -/
theorem recommendation_state_machine (flags : List CheatFlag) (score : ℚ) :
    (isFlagged flags = true ↔
      ∃ f ∈ flags, f.severity = "high" ∨ f.severity = "critical") ∧
    (isFlagged flags = true → score < 30 → recommendation flags score = "reject") ∧
    (isFlagged flags = true → 30 ≤ score → recommendation flags score = "review") ∧
    (isFlagged flags = false → score < 60 → recommendation flags score = "review") ∧
    (isFlagged flags = false → 60 ≤ score → recommendation flags score = "clear") := by
  refine ⟨?_, ?_, ?_, ?_, ?_⟩
  · unfold isFlagged
    rw [List.any_eq_true]
    constructor
    · rintro ⟨f, hf, hsev⟩
      exact ⟨f, hf, by simpa using hsev⟩
    · rintro ⟨f, hf, hsev⟩
      exact ⟨f, hf, by simpa using hsev⟩
  · intro hfl hs
    unfold recommendation
    rw [hfl, if_pos rfl, if_pos hs]
  · intro hfl hs
    unfold recommendation
    rw [hfl, if_pos rfl, if_neg (by linarith)]
  · intro hfl hs
    unfold recommendation
    rw [hfl]
    simp [hs]
  · intro hfl hs
    unfold recommendation
    rw [hfl]
    simp
    linarith

/-- Witness for C3 at concrete inputs: one high-severity flag and score 20
gives flagged = true and recommendation reject. -/
theorem recommendation_state_machine_witness :
    isFlagged [{ flag_type := "bot_pattern", severity := "high",
                 confidence := 7/10, evidence := [] }] = true ∧
    recommendation [{ flag_type := "bot_pattern", severity := "high",
                      confidence := 7/10, evidence := [] }] 20 = "reject" :=
  ⟨by decide,
    (recommendation_state_machine
      [{ flag_type := "bot_pattern", severity := "high",
         confidence := 7/10, evidence := [] }] 20).2.1 (by decide) (by norm_num)⟩

/-- The fields of MCQQuestion (question_generator.py lines 30-39) used by
the evaluator; presentational fields (prompt text, options, explanation)
are not modelled. -/
structure MCQQuestion where
  id : String
  correct_answer : String
  skill : String
  points : ℚ
deriving DecidableEq, Repr

/-- One entry of the answers list passed to evaluate_mcqs: the dict keys
question_id, selected_answer, time_taken_seconds with their defaults. -/
structure MCQAnswer where
  question_id : String
  selected_answer : String
  time_taken_seconds : Int
deriving DecidableEq, Repr

/-- MCQResult (evaluator.py lines 30-37). -/
structure MCQResult where
  question_id : String
  selected_answer : String
  correct_answer : String
  is_correct : Bool
  points_earned : ℚ
  max_points : ℚ
  time_taken_seconds : Int
deriving DecidableEq, Repr

/-- evaluate_mcqs (evaluator.py lines 208-229).  The dict comprehension
answer_map keeps the last entry for a repeated question_id, hence the
lookup over the reversed list; a missing answer defaults selected_answer
to the empty string and the time to 0, as ans.get does on the empty dict.
Correctness is selected.upper() == correct_answer.upper(): case-insensitive
equality with no whitespace trimming. -/
def evaluateMCQs (questions : List MCQQuestion) (answers : List MCQAnswer) :
    List MCQResult :=
  questions.map (fun q =>
    let ans := answers.reverse.find? (fun a => a.question_id == q.id)
    let selected := (ans.map (fun a => a.selected_answer)).getD ""
    let is_correct := pyUpper selected == pyUpper q.correct_answer
    { question_id := q.id
      selected_answer := selected
      correct_answer := q.correct_answer
      is_correct := is_correct
      points_earned := if is_correct then q.points else 0
      max_points := q.points
      time_taken_seconds := (ans.map (fun a => a.time_taken_seconds)).getD 0 })

/-- Counterexample to C4: with stored correct answer "B", the submitted
answer " b " is judged incorrect and earns 0 of 2 points, although the
trimmed case-insensitive comparison the claim describes would accept it:
the evaluator does not trim whitespace. -/
theorem mcq_whitespace_counterexample :
    (evaluateMCQs [{ id := "q1", correct_answer := "B", skill := "Python",
                     points := 2 }]
        [{ question_id := "q1", selected_answer := " b ",
           time_taken_seconds := 10 }]).map
        (fun r => (r.is_correct, r.points_earned)) = [(false, 0)] ∧
    pyUpper (pyStrip " b ") = pyUpper (pyStrip "B") := by
  constructor
  · decide
  · decide

/-- C4 as amended: an exact-choice answer is judged correct exactly when it
equals the stored correct answer under case-insensitive comparison with no
whitespace trimming (so leading or trailing whitespace does change the
verdict), and the points earned are the full question points when correct
and 0 otherwise. -/
theorem mcq_case_insensitive_untrimmed (questions : List MCQQuestion)
    (answers : List MCQAnswer) :
    (evaluateMCQs questions answers).length = questions.length ∧
    (∀ r ∈ evaluateMCQs questions answers,
      r.is_correct = (pyUpper r.selected_answer == pyUpper r.correct_answer) ∧
      r.points_earned = (if r.is_correct then r.max_points else 0)) ∧
    (∀ i, i < questions.length →
      ((evaluateMCQs questions answers)[i]?.map
          (fun r => (r.question_id, r.correct_answer, r.max_points))) =
        (questions[i]?.map (fun q => (q.id, q.correct_answer, q.points)))) := by
  refine ⟨by simp [evaluateMCQs], ?_, ?_⟩
  · intro r hr
    unfold evaluateMCQs at hr
    rw [List.mem_map] at hr
    obtain ⟨q, _, hq⟩ := hr
    subst hq
    constructor
    · rfl
    · split_ifs with h <;> simp_all
  · intro i hi
    unfold evaluateMCQs
    simp [List.getElem?_map, List.getElem?_eq_getElem hi]

/-- Witness for C4 (amended) at concrete inputs: an exactly matching answer
of different case is correct and earns the full 2 points. -/
theorem mcq_case_insensitive_untrimmed_witness :
    ((evaluateMCQs [{ id := "q1", correct_answer := "B", skill := "Python",
                      points := 2 }]
        [{ question_id := "q1", selected_answer := "b",
           time_taken_seconds := 10 }]).map
        (fun r => (r.is_correct, r.points_earned))) = [(true, 2)] ∧
    ((evaluateMCQs [{ id := "q1", correct_answer := "B", skill := "Python",
                      points := 2 }]
        [{ question_id := "q1", selected_answer := "b",
           time_taken_seconds := 10 }]).length = 1) := by
  have h := mcq_case_insensitive_untrimmed
    [{ id := "q1", correct_answer := "B", skill := "Python", points := 2 }]
    [{ question_id := "q1", selected_answer := "b", time_taken_seconds := 10 }]
  exact ⟨by decide, h.1⟩

/-- The fields of SubjectiveQuestion (question_generator.py lines 42-51)
used by the evaluator. -/
structure SubjectiveQuestion where
  id : String
  skill : String
  max_points : ℚ
deriving DecidableEq, Repr

/-- A JSON value as json.loads yields it, at the granularity the evaluator
inspects: a number, a string, a boolean, null, or an array/object (whose
contents the evaluator never reads before float() rejects them). -/
inductive JsonValue where
  | num (q : ℚ)
  | str (s : String)
  | bool (b : Bool)
  | null
  | arr
  | obj
deriving DecidableEq, Repr

/-- ASCII digit test for the float-literal parser. -/
def isDigitChar (c : Char) : Bool := decide (48 ≤ c.toNat ∧ c.toNat ≤ 57)

/-- Value of a digit string. -/
def digitsVal (l : List Char) : ℕ := l.foldl (fun a c => 10 * a + (c.toNat - 48)) 0

/-- Mantissa of a Python float literal: digits, digits.digits, digits. or
.digits — at least one digit overall. -/
def parseMantissa? (l : List Char) : Option ℚ :=
  let intPart := l.takeWhile isDigitChar
  let rest := l.dropWhile isDigitChar
  match rest with
  | [] => if intPart.isEmpty then none else some (digitsVal intPart : ℚ)
  | c :: frac =>
      if c == '.' && frac.all isDigitChar && !(intPart.isEmpty && frac.isEmpty) then
        some ((digitsVal intPart : ℚ) + (digitsVal frac : ℚ) / ((10 : ℚ) ^ frac.length))
      else none

/-- Exponent part of a Python float literal: optional sign then at least one
digit. -/
def parseExponent? (l : List Char) : Option ℤ :=
  match l with
  | '+' :: t => if !t.isEmpty && t.all isDigitChar then some (digitsVal t : ℤ) else none
  | '-' :: t => if !t.isEmpty && t.all isDigitChar then some (-(digitsVal t : ℤ)) else none
  | t => if !t.isEmpty && t.all isDigitChar then some (digitsVal t : ℤ) else none

/-- Python float(string) on finite decimal literals: surrounding whitespace
stripped, optional sign, mantissa, optional e/E exponent.  none models the
ValueError float() raises on anything else.  The inf/nan spellings convert
to IEEE infinities/NaN in Python, values outside the exact rational
embedding, and digit-group underscores are omitted; neither affects any
claim here. -/
def parsePyFloat? (s : String) : Option ℚ :=
  let t := ((s.data.dropWhile (fun c => c.isWhitespace)).reverse.dropWhile
    (fun c => c.isWhitespace)).reverse
  let core : List Char → Option ℚ := fun u =>
    let mant := u.takeWhile (fun c => !(c == 'e' || c == 'E'))
    let rest := u.dropWhile (fun c => !(c == 'e' || c == 'E'))
    match rest with
    | [] => parseMantissa? mant
    | _ :: expPart =>
        match parseMantissa? mant, parseExponent? expPart with
        | some m, some k => some (m * (10 : ℚ) ^ k)
        | _, _ => none
  match t with
  | '+' :: r => core r
  | '-' :: r => (core r).map (fun v => -v)
  | r => core r

/-- Python float(x) on a JSON value: numbers pass through, booleans become
1/0, numeric strings parse, and everything else raises (ValueError for a
non-numeric string, TypeError for null, lists and objects) — modelled as
Except, since these exceptions propagate out of evaluate_subjective. -/
def pyFloat : JsonValue → Except String ℚ
  | .num q => .ok q
  | .bool b => .ok (if b then 1 else 0)
  | .str s =>
      match parsePyFloat? s with
      | some q => .ok q
      | none => .error ("ValueError: could not convert string to float: " ++ s)
  | .null => .error "TypeError: float() argument must be a string or a real number, not NoneType"
  | .arr => .error "TypeError: float() argument must be a string or a real number, not list"
  | .obj => .error "TypeError: float() argument must be a string or a real number, not dict"

/-- The parsed JSON dict returned by llm_client.generate_json as consumed by
evaluate_subjective: each key the evaluator reads, as an optional field
whose value is an arbitrary JSON value where the source applies float() to
it.  _parse_json (llm_client.py lines 183-209) either yields the parsed
dict or, when every parse attempt fails, the fallback error dict, which
carries none of these keys; parseFailureResponse below is that fallback.
feedback is kept as an already-string value: a non-string feedback would
also fail pydantic validation, a further propagating path no claim turns
on. -/
structure ParsedResponse where
  total_score : Option JsonValue
  feedback : Option String
  confidence : Option JsonValue
  error : Option String
deriving DecidableEq, Repr

/-- The error dict returned by _parse_json when the collaborator response is
not parseable as JSON (llm_client.py line 209). -/
def parseFailureResponse : ParsedResponse :=
  { total_score := none, feedback := none, confidence := none,
    error := some "Failed to parse LLM response" }

/-- SubjectiveResult (evaluator.py lines 40-49); the scores dict and key
point lists are not needed by any claim and are not modelled. -/
structure SubjectiveResult where
  question_id : String
  answer_text : String
  total_score : ℚ
  max_score : ℚ
  feedback : String
  confidence : ℚ
deriving DecidableEq, Repr

/-- evaluate_subjective (evaluator.py lines 233-268), as a function of the
parsed collaborator response.  In source order: float(result.get(
"total_score", 0)) runs first and its ValueError/TypeError propagates; then
float(result.get("confidence", 0.5)) likewise; then pydantic validates the
SubjectiveResult, whose only constrained field is confidence with
Field(ge=0, le=1.0), raising a ValidationError outside [0, 1].  total_score
is stored with NO clamping; feedback defaults to "Evaluation failed";
max_score is the question's max_points. -/
def evaluateSubjective (question : SubjectiveQuestion)
    (candidate_answer : String) (result : ParsedResponse) :
    Except String SubjectiveResult :=
  match pyFloat (result.total_score.getD (.num 0)) with
  | .error e => .error e
  | .ok total_score =>
      match pyFloat (result.confidence.getD (.num (1 / 2))) with
      | .error e => .error e
      | .ok confidence =>
          if 0 ≤ confidence ∧ confidence ≤ 1 then
            .ok { question_id := question.id
                  answer_text := candidate_answer
                  total_score := total_score
                  max_score := question.max_points
                  feedback := result.feedback.getD "Evaluation failed"
                  confidence := confidence }
          else .error "ValidationError: confidence must be between 0 and 1"

/-- Counterexample to C5, refuting both halves: for a 10-point question, a
response with total_score 25 is recorded as 25, above the maximum (no
clamping); and malformed-but-parseable responses propagate failures out of
the evaluation instead of degrading to zero — a non-numeric total_score
string raises in float(), and a numeric confidence of 2 fails the
Field(ge=0, le=1.0) validation. -/
theorem subjective_clamp_and_propagation_counterexample :
    (∃ r, evaluateSubjective
        { id := "s1", skill := "Python", max_points := 10 } "answer"
        { total_score := some (.num 25), feedback := some "ok",
          confidence := some (.num 1), error := none } = .ok r ∧
      r.total_score = 25 ∧ r.max_score = 10 ∧ ¬ r.total_score ≤ r.max_score) ∧
    (∃ e, evaluateSubjective
        { id := "s1", skill := "Python", max_points := 10 } "answer"
        { total_score := some (.str "excellent"), feedback := some "ok",
          confidence := some (.num 1), error := none } = .error e) ∧
    (∃ e, evaluateSubjective
        { id := "s1", skill := "Python", max_points := 10 } "answer"
        { total_score := some (.num 5), feedback := some "ok",
          confidence := some (.num 2), error := none } = .error e) := by
  refine ⟨?_, ?_, ?_⟩
  · have hr : evaluateSubjective
        { id := "s1", skill := "Python", max_points := 10 } "answer"
        { total_score := some (.num 25), feedback := some "ok",
          confidence := some (.num 1), error := none } = .ok
        { question_id := "s1", answer_text := "answer", total_score := 25,
          max_score := 10, feedback := "ok", confidence := 1 } := by
      simp only [evaluateSubjective, pyFloat, Option.getD_some]
      rw [if_pos (by norm_num)]
    exact ⟨_, hr, rfl, rfl, by norm_num⟩
  · exact ⟨_, rfl⟩
  · have he : evaluateSubjective
        { id := "s1", skill := "Python", max_points := 10 } "answer"
        { total_score := some (.num 5), feedback := some "ok",
          confidence := some (.num 2), error := none } =
        .error "ValidationError: confidence must be between 0 and 1" := by
      simp only [evaluateSubjective, pyFloat, Option.getD_some]
      rw [if_neg (by norm_num)]
    exact ⟨_, he⟩

/-- C5 as amended: the recorded subjective score is whatever numeric
total_score the collaborator returns, with no clamping to [0, max points];
a missing or non-JSON-parseable collaborator response degrades to a zero
score with the error feedback "Evaluation failed"; but a JSON-parseable
response that violates the schema propagates a failure out of the
evaluation: a total_score or confidence on which float() raises (a
non-numeric string, null, a list or an object) propagates that error, and a
numeric confidence outside [0, 1] fails SubjectiveResult validation. -/
theorem subjective_score_error_semantics
    (question : SubjectiveQuestion) (answer : String)
    (result : ParsedResponse) :
    (∃ r, evaluateSubjective question answer parseFailureResponse = .ok r ∧
      r.total_score = 0 ∧ r.feedback = "Evaluation failed") ∧
    (∀ s : ℚ, result.total_score = some (.num s) → result.confidence = none →
      ∃ r, evaluateSubjective question answer result = .ok r ∧
        r.total_score = s) ∧
    (∀ v e, result.total_score = some v → pyFloat v = .error e →
      evaluateSubjective question answer result = .error e) ∧
    (∀ ts v e, result.total_score = some (JsonValue.num ts) →
      result.confidence = some v → pyFloat v = .error e →
      evaluateSubjective question answer result = .error e) ∧
    (∀ ts cf : ℚ, result.total_score = some (JsonValue.num ts) →
      result.confidence = some (JsonValue.num cf) → ¬ (0 ≤ cf ∧ cf ≤ 1) →
      evaluateSubjective question answer result =
        .error "ValidationError: confidence must be between 0 and 1") := by
  refine ⟨?_, ?_, ?_, ?_, ?_⟩
  · have hr : evaluateSubjective question answer parseFailureResponse = .ok
        { question_id := question.id, answer_text := answer,
          total_score := 0, max_score := question.max_points,
          feedback := "Evaluation failed", confidence := 1 / 2 } := by
      simp only [evaluateSubjective, parseFailureResponse, pyFloat,
        Option.getD_none]
      rw [if_pos (by norm_num)]
    exact ⟨_, hr, rfl, rfl⟩
  · intro s hs hc
    have hr : evaluateSubjective question answer result = .ok
        { question_id := question.id, answer_text := answer,
          total_score := s, max_score := question.max_points,
          feedback := result.feedback.getD "Evaluation failed",
          confidence := 1 / 2 } := by
      simp only [evaluateSubjective, hs, hc, pyFloat, Option.getD_some,
        Option.getD_none]
      rw [if_pos (by norm_num)]
    exact ⟨_, hr, rfl⟩
  · intro v e hv he
    simp only [evaluateSubjective, hv, Option.getD_some, he]
  · intro ts v e ht hc he
    unfold evaluateSubjective
    rw [ht, hc]
    simp only [Option.getD_some]
    rw [he]
    rfl
  · intro ts cf ht hc hcf
    simp only [evaluateSubjective, ht, hc, pyFloat, Option.getD_some]
    rw [if_neg hcf]

/-- Witness for C5 (amended) at concrete inputs: a response with numeric
total_score 7 for a 10-point question records exactly 7. -/
theorem subjective_score_error_semantics_witness :
    ∃ r, evaluateSubjective { id := "s1", skill := "Python", max_points := 10 }
        "answer"
        { total_score := some (.num 7), feedback := some "ok",
          confidence := none, error := none } = .ok r ∧
      r.total_score = 7 :=
  (subjective_score_error_semantics
      { id := "s1", skill := "Python", max_points := 10 } "answer"
      { total_score := some (.num 7), feedback := some "ok",
        confidence := none, error := none }).2.1 7 rfl rfl

/-- One test case dict of a CodingQuestion: the keys input and
expected_output read by _run_test_cases, with their get defaults. -/
structure TestCase where
  input : String
  expected_output : String
deriving DecidableEq, Repr

/-- CodeTestResult (evaluator.py lines 52-58). -/
structure CodeTestResult where
  test_case_index : ℕ
  passed : Bool
  input_data : String
  expected_output : String
  actual_output : String
  error : Option String
deriving DecidableEq, Repr

/-- Outcome of the subprocess.run call inside _execute_code for one
invocation, the only effectful step of that function: the process completed
with an exit status and captured streams, or the wall-clock limit expired,
or the runtime raised some other exception. -/
inductive ExecBehavior where
  | completed (returncode : Int) (stdout : String) (stderr : String)
  | timedOut
  | raised (msg : String)
deriving DecidableEq, Repr

/-- The keys of cmd_map in _execute_code (evaluator.py lines 347-350). -/
def supportedLanguages : List String := ["python", "javascript"]

/-- _execute_code (evaluator.py lines 342-380), as a function of the
subprocess outcome: an unsupported language returns an in-band message; a
non-zero exit status returns "ERROR: " plus the first 500 characters of
stderr; a timeout returns "ERROR: Time Limit Exceeded"; any other exception
returns "ERROR: " plus its message; a clean exit returns stripped stdout.
Every branch returns a string — the function never lets an exception
escape.  The code and input_data arguments only feed the subprocess. -/
def executeCode (code : String) (language : String) (input_data : String)
    (behavior : ExecBehavior) : String :=
  if language ∉ supportedLanguages then
    "Language " ++ language ++ " not supported for execution"
  else
    match behavior with
    | .completed rc out err =>
        if rc ≠ 0 then "ERROR: " ++ err.take 500 else pyStrip out
    | .timedOut => "ERROR: Time Limit Exceeded"
    | .raised msg => "ERROR: " ++ msg.take 500

/-- _run_test_cases (evaluator.py lines 310-340).  The per-test execution is
supplied as a function from the test index and input to either a returned
output string or a raised exception message (the try/except around the
await); a raised exception becomes a failed result carrying the truncated
error, a returned output is stripped and compared with the stripped expected
output.  Note the except branch stores the expected output unstripped. -/
def runTestCases (execution : ℕ → String → Except String String)
    (test_cases : List TestCase) : List CodeTestResult :=
  test_cases.enum.map (fun p =>
    match execution p.1 p.2.input with
    | .ok actual_output =>
        let expected := pyStrip p.2.expected_output
        let actual := pyStrip actual_output
        { test_case_index := p.1
          passed := actual == expected
          input_data := p.2.input
          expected_output := expected
          actual_output := actual
          error := none }
    | .error e =>
        { test_case_index := p.1
          passed := false
          input_data := p.2.input
          expected_output := p.2.expected_output
          actual_output := ""
          error := some (e.take 500) })

/-- C6: running the test cases yields exactly one result per test case, in
the original order — the i-th result carries test_case_index i and the i-th
test case's input — even when individual executions raise exceptions. -/
theorem run_test_cases_length_and_order
    (execution : ℕ → String → Except String String)
    (test_cases : List TestCase) :
    (runTestCases execution test_cases).length = test_cases.length ∧
    (∀ i, i < test_cases.length →
      ((runTestCases execution test_cases)[i]?.map
          (fun r => r.test_case_index)) = some i ∧
      ((runTestCases execution test_cases)[i]?.map (fun r => r.input_data)) =
        (test_cases[i]?.map (fun tc => tc.input))) := by
  constructor
  · simp [runTestCases]
  · intro i hi
    unfold runTestCases
    rw [List.getElem?_map, List.getElem?_enum, List.getElem?_eq_getElem hi]
    constructor
    · cases hb : execution i (test_cases[i]).input <;> simp [hb]
    · cases hb : execution i (test_cases[i]).input <;>
        simp [hb, List.getElem?_eq_getElem hi]

/-- Witness for C6 at concrete inputs: two test cases, the second execution
raising, still yield two results indexed 0 and 1. -/
theorem run_test_cases_length_and_order_witness :
    (runTestCases
        (fun i _ => if i = 0 then .ok "42" else .error "boom")
        [{ input := "a", expected_output := "42" },
         { input := "b", expected_output := "7" }]).length = 2 ∧
    ((runTestCases
        (fun i _ => if i = 0 then .ok "42" else .error "boom")
        [{ input := "a", expected_output := "42" },
         { input := "b", expected_output := "7" }])[1]?.map
        (fun r => r.test_case_index)) = some 1 :=
  ⟨(run_test_cases_length_and_order
      (fun i _ => if i = 0 then .ok "42" else .error "boom")
      [{ input := "a", expected_output := "42" },
       { input := "b", expected_output := "7" }]).1,
    ((run_test_cases_length_and_order
      (fun i _ => if i = 0 then .ok "42" else .error "boom")
      [{ input := "a", expected_output := "42" },
       { input := "b", expected_output := "7" }]).2 1 (by norm_num)).1⟩

/-- Counterexample to C7: errors are reported in-band as the output string,
so a test case whose expected output happens to equal the error string
produces a PASSED outcome with no error field on a timeout — not the failed
error-carrying outcome the claim describes for every timeout. -/
theorem execute_error_in_band_counterexample :
    ((runTestCases
        (fun _ input => .ok (executeCode "while True: pass" "python" input
          .timedOut))
        [{ input := "", expected_output := "ERROR: Time Limit Exceeded" }]).map
        (fun r => (r.passed, r.error))) = [(true, none)] := by
  decide

/-- C7 as amended: a non-zero exit status, an unsupported-language tag, or a
timeout is reported in-band as an error string in the outcome's output —
never an exception, and the batch always keeps one outcome per test case —
and the outcome is a failed one exactly when the stripped expected output
differs from that error string (they coincide only in the freak case where
the expected output equals the error text). -/
theorem execute_errors_structured (codeStr language : String)
    (test_cases : List TestCase) (behaviors : ℕ → ExecBehavior) :
    (runTestCases
        (fun i input => .ok (executeCode codeStr language input (behaviors i)))
        test_cases).length = test_cases.length ∧
    (∀ (i : ℕ) (hi : i < test_cases.length),
      ∀ r, (runTestCases
          (fun i input => .ok (executeCode codeStr language input (behaviors i)))
          test_cases)[i]? = some r →
        r.error = none ∧
        (language ∉ supportedLanguages →
          r.actual_output =
            pyStrip ("Language " ++ language ++ " not supported for execution")) ∧
        (language ∈ supportedLanguages → behaviors i = .timedOut →
          r.actual_output = pyStrip "ERROR: Time Limit Exceeded" ∧
          (r.passed = false ↔
            pyStrip (test_cases[i]).expected_output ≠
              pyStrip "ERROR: Time Limit Exceeded")) ∧
        (language ∈ supportedLanguages →
          ∀ rc out err, behaviors i = .completed rc out err → rc ≠ 0 →
            r.actual_output = pyStrip ("ERROR: " ++ err.take 500))) := by
  constructor
  · simp [runTestCases]
  · intro i hi r hr
    unfold runTestCases at hr
    rw [List.getElem?_map, List.getElem?_enum, List.getElem?_eq_getElem hi] at hr
    simp only [Option.map_map, Option.map_some', Option.some.injEq] at hr
    subst hr
    refine ⟨rfl, ?_, ?_, ?_⟩
    · intro hlang
      simp [executeCode, hlang]
    · intro hlang hb
      have hexec : executeCode codeStr language (test_cases[i]).input
          (behaviors i) = "ERROR: Time Limit Exceeded" := by
        simp [executeCode, hlang, hb]
      constructor
      · show pyStrip (executeCode codeStr language _ (behaviors i)) = _
        rw [hexec]
      · show (pyStrip (executeCode codeStr language _ (behaviors i)) ==
            pyStrip (test_cases[i]).expected_output) = false ↔ _
        rw [hexec]
        simp [beq_eq_false_iff_ne, ne_comm]
    · intro hlang rc out err hb hrc
      show pyStrip (executeCode codeStr language _ (behaviors i)) = _
      simp [executeCode, hlang, hb, hrc]

/-- The comparison cv < 0.1 of check_timing_anomalies (anti_cheat.py lines
272-278) in exact arithmetic: cv is std_dev / avg when avg > 0 and 0
otherwise, and std_dev is the square root of the variance, so for avg > 0
the comparison cv < 0.1 is equivalent to variance < (avg / 10)^2 (both
sides of the original comparison are nonnegative), which avoids the
irrational square root; for avg <= 0 the source compares 0 < 0.1, true. -/
def cvBelowTenth (times : List ℚ) : Bool :=
  let n : ℚ := times.length
  let avg := times.sum / n
  let variance := (times.map (fun t => (t - avg) ^ 2)).sum / n
  if avg > 0 then decide (variance < (avg / 10) ^ 2) else true

/-- The consecutive-question speed-change count of check_timing_anomalies
(anti_cheat.py lines 289-293): pairs of consecutive times, both positive,
whose ratio exceeds 10. -/
def ratioAnomalyCount (times : List ℚ) : ℕ :=
  ((times.zip times.tail).filter (fun p =>
    decide (0 < p.2 ∧ 0 < p.1 ∧ 10 < max p.2 p.1 / min p.2 p.1))).length

/-- check_timing_anomalies (anti_cheat.py lines 246-295), as a function of
the extracted time_seconds list: an empty list returns no flags and score
0; otherwise a timing_anomaly flag (critical when over half the answers are
under the minimum time, high when over 30%), a bot_pattern flag when there
are MORE than 5 samples and the coefficient of variation is below 0.1, and
an anomaly score of 40 and 30 for those conditions plus 5 per sudden
consecutive speed change, capped at 100.  The flag evidence keeps its
numeric entries; the rounded coefficient of variation stored as evidence is
an irrational square root and is not modelled (it is presentational). -/
def checkTimingAnomalies (times : List ℚ) : List CheatFlag × ℚ :=
  if times.isEmpty then ([], 0)
  else
    let n : ℚ := times.length
    let fast : ℕ := (times.filter (fun t => decide (t < MIN_TIME_PER_QUESTION))).length
    let fastFlags : List CheatFlag :=
      if (fast : ℚ) > n * (3 / 10) then
        [{ flag_type := "timing_anomaly"
           severity := if (fast : ℚ) > n * (1 / 2) then "critical" else "high"
           confidence := 17 / 20
           evidence := [("fast_answers", (fast : ℚ)), ("total", n),
             ("threshold_seconds", MIN_TIME_PER_QUESTION)] }]
      else []
    let fastScore : ℚ := if (fast : ℚ) > n * (3 / 10) then 40 else 0
    let botFlags : List CheatFlag :=
      if 5 < times.length ∧ cvBelowTenth times = true then
        [{ flag_type := "bot_pattern"
           severity := "high"
           confidence := 7 / 10
           evidence := [("avg_time", round1 (times.sum / n))] }]
      else []
    let botScore : ℚ := if 5 < times.length ∧ cvBelowTenth times = true then 30 else 0
    (fastFlags ++ botFlags,
      min (fastScore + botScore + 5 * (ratioAnomalyCount times : ℚ)) 100)

/-- Witness for C7 (amended) at concrete inputs: an unsupported language
("java") yields an outcome whose output is the in-band unsupported-language
message. -/
theorem execute_errors_structured_witness :
    ∃ r, (runTestCases (fun i input =>
        Except.ok (executeCode "print(1)" "java" input ((fun _ =>
          ExecBehavior.timedOut) i)))
        [{ input := "", expected_output := "42" }])[0]? = some r ∧
      r.actual_output =
        pyStrip ("Language " ++ "java" ++ " not supported for execution") := by
  obtain ⟨r, hr⟩ : ∃ r, (runTestCases (fun i input =>
      Except.ok (executeCode "print(1)" "java" input ((fun _ =>
        ExecBehavior.timedOut) i)))
      [{ input := "", expected_output := "42" }])[0]? = some r := ⟨_, rfl⟩
  exact ⟨r, hr,
    (((execute_errors_structured "print(1)" "java"
        [{ input := "", expected_output := "42" }]
        (fun _ => ExecBehavior.timedOut)).2 0 (by norm_num) r hr).2.1
      (by decide))⟩

lemma checkTimingAnomalies_flags (times : List ℚ) :
    (checkTimingAnomalies times).1 =
      (if ((times.filter (fun t => decide (t < MIN_TIME_PER_QUESTION))).length : ℚ) >
          (times.length : ℚ) * (3 / 10) then
        [{ flag_type := "timing_anomaly"
           severity :=
             if ((times.filter (fun t => decide (t < MIN_TIME_PER_QUESTION))).length : ℚ) >
                 (times.length : ℚ) * (1 / 2) then "critical" else "high"
           confidence := 17 / 20
           evidence := [("fast_answers",
               ((times.filter (fun t => decide (t < MIN_TIME_PER_QUESTION))).length : ℚ)),
             ("total", (times.length : ℚ)),
             ("threshold_seconds", MIN_TIME_PER_QUESTION)] }]
      else []) ++
      (if 5 < times.length ∧ cvBelowTenth times = true then
        [{ flag_type := "bot_pattern", severity := "high", confidence := 7 / 10,
           evidence := [("avg_time", round1 (times.sum / (times.length : ℚ)))] }]
      else []) := by
  rcases times with _ | ⟨a, t⟩
  · simp [checkTimingAnomalies]
  · unfold checkTimingAnomalies
    rw [if_neg (by simp)]

/-- Counterexample to C8: five answers of 12 seconds each have zero variance
(coefficient of variation 0 < 0.1) across at least 5 samples, yet the
detector emits no flag at all, because the source requires strictly more
than 5 samples for the bot-pattern check. -/
theorem bot_flag_five_samples_counterexample :
    (checkTimingAnomalies (List.replicate 5 12)).1 = [] ∧
    5 ≤ (List.replicate 5 (12 : ℚ)).length ∧
    cvBelowTenth (List.replicate 5 12) = true := by
  refine ⟨?_, by norm_num, ?_⟩
  · rw [checkTimingAnomalies_flags]
    norm_num [cvBelowTenth, List.replicate, MIN_TIME_PER_QUESTION]
  · norm_num [cvBelowTenth, List.replicate]

/-- C8 as amended: the timing detector emits a timing-anomaly flag exactly
when the count of answers under the minimum-seconds threshold exceeds 30%
of the answers (with severity critical when it exceeds 50% and high
otherwise), and emits a high-severity bot-pattern flag exactly when there
are strictly more than 5 samples (at least 6, not 5) and the coefficient of
variation is below 0.1. -/
theorem timing_flags_characterization (times : List ℚ) :
    (((checkTimingAnomalies times).1.any
        (fun f => f.flag_type == "timing_anomaly")) = true ↔
      ((times.filter (fun t => decide (t < MIN_TIME_PER_QUESTION))).length : ℚ) >
        (times.length : ℚ) * (3 / 10)) ∧
    (∀ f ∈ (checkTimingAnomalies times).1, f.flag_type = "timing_anomaly" →
      f.severity =
        (if ((times.filter (fun t => decide (t < MIN_TIME_PER_QUESTION))).length : ℚ) >
            (times.length : ℚ) * (1 / 2) then "critical" else "high")) ∧
    (((checkTimingAnomalies times).1.any
        (fun f => f.flag_type == "bot_pattern")) = true ↔
      (5 < times.length ∧ cvBelowTenth times = true)) ∧
    (∀ f ∈ (checkTimingAnomalies times).1, f.flag_type = "bot_pattern" →
      f.severity = "high") := by
  by_cases h1 : ((times.filter (fun t => decide (t < MIN_TIME_PER_QUESTION))).length : ℚ) >
      (times.length : ℚ) * (3 / 10) <;>
    by_cases h2 : (5 < times.length ∧ cvBelowTenth times = true) <;>
    refine ⟨?_, ?_, ?_, ?_⟩ <;>
    rw [checkTimingAnomalies_flags] <;>
    simp only [h1, h2, if_true, if_false, and_self, if_pos, if_neg,
      List.any_append, List.mem_append] <;>
    simp [h1, h2]

/-- Witness for C8 (amended): ten answers of exactly 12 seconds each (zero
variance) yield a bot-pattern flag. -/
theorem timing_flags_characterization_witness :
    ((checkTimingAnomalies (List.replicate 10 12)).1.any
        (fun f => f.flag_type == "bot_pattern")) = true :=
  ((timing_flags_characterization (List.replicate 10 12)).2.2.1).mpr
    ⟨by norm_num, by norm_num [cvBelowTenth, List.replicate]⟩

/-- The largest multiplicity of any element of a list (the count of
Counter(answers).most_common(1) in check_random_guessing). -/
def maxCount (l : List String) : ℕ := (l.map (fun a => l.count a)).foldr max 0

/-- The local variable answers of check_random_guessing (anti_cheat.py line
310): the non-empty selected answers. -/
def answeredList (mcq_results : List MCQResult) : List String :=
  (mcq_results.map (fun r => r.selected_answer)).filter (fun s => s ≠ "")

/-- The local variable most_common_pct of check_random_guessing (line 323):
the share of the most frequent answer among the non-empty answers. -/
def mostCommonPct (mcq_results : List MCQResult) : ℚ :=
  (maxCount (answeredList mcq_results) : ℚ) /
    ((answeredList mcq_results).length : ℚ)

/-- The local variable accuracy of check_random_guessing (line 335):
correct results over all results. -/
def mcqAccuracy (mcq_results : List MCQResult) : ℚ :=
  ((mcq_results.filter (fun r => r.is_correct)).length : ℚ) /
    (mcq_results.length : ℚ)

/-- The critical no-answers flag of check_random_guessing (lines 312-318). -/
def noAnswerFlag (mcq_results : List MCQResult) : CheatFlag :=
  { flag_type := "random_guess", severity := "critical", confidence := 19 / 20,
    evidence := [("answered", 0), ("total", (mcq_results.length : ℚ))] }

/-- The high dominant-answer flag of check_random_guessing (lines 325-331). -/
def highGuessFlag (mcq_results : List MCQResult) : CheatFlag :=
  { flag_type := "random_guess", severity := "high", confidence := 3 / 4,
    evidence := [("most_common_pct", round2 (mostCommonPct mcq_results))] }

/-- The medium near-chance-accuracy flag of check_random_guessing (lines
337-343). -/
def mediumGuessFlag (mcq_results : List MCQResult) : CheatFlag :=
  { flag_type := "random_guess", severity := "medium", confidence := 3 / 5,
    evidence := [("accuracy", round2 (mcqAccuracy mcq_results)),
      ("correct", ((mcq_results.filter (fun r => r.is_correct)).length : ℚ)),
      ("total", (mcq_results.length : ℚ))] }

/-- check_random_guessing (anti_cheat.py lines 299-345): with fewer than 5
MCQ results, no flags; with no non-empty selected answer, a single critical
no-answers flag and an early return; otherwise the high flag when one
answer accounts for more than 70% of the non-empty answers and there are
strictly more than 5 of them, and the medium flag when accuracy over all
results is at most 30% with at least 8 results.  Evidence keeps the numeric
entries of the source (the answer-distribution dict is presentational and
not modelled). -/
def checkRandomGuessing (mcq_results : List MCQResult) : List CheatFlag :=
  if mcq_results.length < 5 then []
  else if answeredList mcq_results = [] then [noAnswerFlag mcq_results]
  else
    (if mostCommonPct mcq_results > 7 / 10 ∧
        5 < (answeredList mcq_results).length then
      [highGuessFlag mcq_results]
    else []) ++
    (if mcqAccuracy mcq_results ≤ 3 / 10 ∧ 8 ≤ mcq_results.length then
      [mediumGuessFlag mcq_results]
    else [])

/-- One incorrect MCQ result selecting option A, for the C9
counterexample. -/
def mcqResultA : MCQResult :=
  { question_id := "q", selected_answer := "A", correct_answer := "B",
    is_correct := false, points_earned := 0, max_points := 1,
    time_taken_seconds := 10 }

/-- Counterexample to C9: five answered results all selecting option A —
one option accounting for 100% > 70% of at least 5 answers — produce no
flag at all: the source requires strictly more than 5 answers for the
dominant-option test. -/
theorem guessing_high_five_answers_counterexample :
    checkRandomGuessing (List.replicate 5 mcqResultA) = [] ∧
    5 ≤ (List.replicate 5 mcqResultA).length ∧
    mostCommonPct (List.replicate 5 mcqResultA) > 7 / 10 := by
  have hmc : maxCount (answeredList (List.replicate 5 mcqResultA)) = 5 := by decide
  have hlen : (answeredList (List.replicate 5 mcqResultA)).length = 5 := by decide
  have hpct : mostCommonPct (List.replicate 5 mcqResultA) > 7 / 10 := by
    unfold mostCommonPct
    rw [hmc, hlen]
    norm_num
  refine ⟨?_, by norm_num, hpct⟩
  unfold checkRandomGuessing
  rw [if_neg (by decide), if_neg (by decide), if_neg (by rw [hlen]; omega),
    if_neg ?_]
  · rfl
  · have hacc : mcqAccuracy (List.replicate 5 mcqResultA) = 0 := by
      unfold mcqAccuracy
      norm_num [List.replicate, mcqResultA]
    rw [hacc]
    norm_num

/-- C9 as amended: for at least 5 recorded MCQ results of which at least one
has a non-empty selected answer, the guessing detector emits a
medium-severity flag exactly when accuracy over all results is at most 30%
with at least 8 results (recording the accuracy in the evidence), and a
high-severity flag exactly when one selected option accounts for more than
70% of the non-empty answers and there are strictly more than 5 (at least
6, not 5) such answers; the two tests are independent of each other. -/
theorem guessing_flags_characterization (mcq_results : List MCQResult)
    (h5 : 5 ≤ mcq_results.length)
    (hne : answeredList mcq_results ≠ []) :
    (((checkRandomGuessing mcq_results).any
        (fun f => f.flag_type == "random_guess" && f.severity == "high")) = true ↔
      (mostCommonPct mcq_results > 7 / 10 ∧
        5 < (answeredList mcq_results).length)) ∧
    (((checkRandomGuessing mcq_results).any
        (fun f => f.flag_type == "random_guess" && f.severity == "medium")) = true ↔
      (mcqAccuracy mcq_results ≤ 3 / 10 ∧ 8 ≤ mcq_results.length)) ∧
    (∀ f ∈ checkRandomGuessing mcq_results, f.severity = "medium" →
      ("accuracy", round2 (mcqAccuracy mcq_results)) ∈ f.evidence) := by
  unfold checkRandomGuessing
  rw [if_neg (by omega), if_neg hne]
  by_cases h1 : (mostCommonPct mcq_results > 7 / 10 ∧
      5 < (answeredList mcq_results).length) <;>
    by_cases h2 : (mcqAccuracy mcq_results ≤ 3 / 10 ∧ 8 ≤ mcq_results.length) <;>
    refine ⟨?_, ?_, ?_⟩ <;>
    simp [h1, h2, highGuessFlag, mediumGuessFlag]

/-- The eight-results scenario of the spec: six wrong answers spread over
four options plus two right ones; 2 of 8 correct.  A right MCQ result
selecting the given option: -/
def mcqResultRight (s : String) : MCQResult :=
  { question_id := "q", selected_answer := s, correct_answer := s,
    is_correct := true, points_earned := 1, max_points := 1,
    time_taken_seconds := 10 }

/-- A wrong MCQ result selecting the given option. -/
def mcqResultWrong (s : String) : MCQResult :=
  { question_id := "q", selected_answer := s, correct_answer := "Z",
    is_correct := false, points_earned := 0, max_points := 1,
    time_taken_seconds := 10 }

def eightResultsScenario : List MCQResult :=
  [mcqResultWrong "A", mcqResultWrong "B", mcqResultWrong "C",
   mcqResultWrong "D", mcqResultWrong "A", mcqResultWrong "B",
   mcqResultRight "A", mcqResultRight "B"]

/-- Witness for C9 (amended), on the spec scenario: 8 answered results with
2 correct yield the medium flag, and the recorded accuracy is 0.25. -/
theorem guessing_flags_characterization_witness :
    ((checkRandomGuessing eightResultsScenario).any
      (fun f => f.flag_type == "random_guess" && f.severity == "medium")) = true ∧
    round2 (mcqAccuracy eightResultsScenario) = 1 / 4 := by
  have hacc : mcqAccuracy eightResultsScenario = 1 / 4 := by
    unfold mcqAccuracy
    have h1 : (eightResultsScenario.filter (fun r => r.is_correct)).length = 2 := by
      decide
    have h2 : eightResultsScenario.length = 8 := by decide
    rw [h1, h2]
    norm_num
  constructor
  · exact (guessing_flags_characterization eightResultsScenario
        (by decide) (by decide)).2.1.mpr ⟨by rw [hacc]; norm_num, by decide⟩
  · rw [hacc]
    unfold round2
    norm_num

/-- The fields of CodingQuestion (question_generator.py lines 54-68) used
by the score aggregation. -/
structure CodingQuestion where
  id : String
  skill : String
  max_points : ℚ
deriving DecidableEq, Repr

/-- The fields of CodingResult (evaluator.py lines 61-74) used by the score
aggregation. -/
structure CodingResult where
  question_id : String
  total_score : ℚ
  max_score : ℚ
deriving DecidableEq, Repr

/-- total_score of evaluate_candidate (evaluator.py lines 439-446): the sum
of MCQ points earned, subjective total scores and coding total scores. -/
def totalScore (mcq : List MCQResult) (subj : List SubjectiveResult)
    (code : List CodingResult) : ℚ :=
  (mcq.map (fun r => r.points_earned)).sum +
    (subj.map (fun r => r.total_score)).sum +
    (code.map (fun r => r.total_score)).sum

/-- max_total of evaluate_candidate (evaluator.py lines 440-447). -/
def maxTotalScore (mcq : List MCQResult) (subj : List SubjectiveResult)
    (code : List CodingResult) : ℚ :=
  (mcq.map (fun r => r.max_points)).sum +
    (subj.map (fun r => r.max_score)).sum +
    (code.map (fun r => r.max_score)).sum

/-- percentage of evaluate_candidate (evaluator.py line 448): guarded by
max_total > 0, else 0, rounded to 2 places. -/
def percentage (mcq : List MCQResult) (subj : List SubjectiveResult)
    (code : List CodingResult) : ℚ :=
  round2 (if maxTotalScore mcq subj code > 0 then
    totalScore mcq subj code / maxTotalScore mcq subj code * 100
  else 0)

/-- The skill_earned accumulation of _calculate_skill_scores (evaluator.py
lines 487-508) for one skill: summed over the question/result pairs whose
question carries that skill (dict accumulation over zips, expressed per
key). -/
def skillEarned (sk : String) (mcqQ : List MCQQuestion) (mcq : List MCQResult)
    (subjQ : List SubjectiveQuestion) (subj : List SubjectiveResult)
    (codeQ : List CodingQuestion) (code : List CodingResult) : ℚ :=
  (((mcqQ.zip mcq).filter (fun p => p.1.skill == sk)).map
    (fun p => p.2.points_earned)).sum +
  (((subjQ.zip subj).filter (fun p => p.1.skill == sk)).map
    (fun p => p.2.total_score)).sum +
  (((codeQ.zip code).filter (fun p => p.1.skill == sk)).map
    (fun p => p.2.total_score)).sum

/-- The skill_max accumulation of _calculate_skill_scores for one skill. -/
def skillMaxScore (sk : String) (mcqQ : List MCQQuestion) (mcq : List MCQResult)
    (subjQ : List SubjectiveQuestion) (subj : List SubjectiveResult)
    (codeQ : List CodingQuestion) (code : List CodingResult) : ℚ :=
  (((mcqQ.zip mcq).filter (fun p => p.1.skill == sk)).map
    (fun p => p.2.max_points)).sum +
  (((subjQ.zip subj).filter (fun p => p.1.skill == sk)).map
    (fun p => p.2.max_score)).sum +
  (((codeQ.zip code).filter (fun p => p.1.skill == sk)).map
    (fun p => p.2.max_score)).sum

/-- The per-skill value of the dict returned by _calculate_skill_scores
(evaluator.py lines 510-514): guarded by skill_max > 0, else 0, rounded to
1 place. -/
def skillScore (sk : String) (mcqQ : List MCQQuestion) (mcq : List MCQResult)
    (subjQ : List SubjectiveQuestion) (subj : List SubjectiveResult)
    (codeQ : List CodingQuestion) (code : List CodingResult) : ℚ :=
  if skillMaxScore sk mcqQ mcq subjQ subj codeQ code > 0 then
    round1 (skillEarned sk mcqQ mcq subjQ subj codeQ code /
      skillMaxScore sk mcqQ mcq subjQ subj codeQ code * 100)
  else 0

/-- C10: the percentage computations of candidate evaluation are
division-guarded: when the maximum total points are 0 the overall
percentage is 0, and when a skill's accumulated maximum is 0 that skill's
score is 0 — the guarded definitions are total, so evaluating an empty or
zero-point assessment yields 0 rather than a division fault. -/
theorem percentage_division_guards (mcq : List MCQResult)
    (subj : List SubjectiveResult) (code : List CodingResult)
    (mcqQ : List MCQQuestion) (subjQ : List SubjectiveQuestion)
    (codeQ : List CodingQuestion) :
    (maxTotalScore mcq subj code = 0 → percentage mcq subj code = 0) ∧
    (∀ sk : String, skillMaxScore sk mcqQ mcq subjQ subj codeQ code = 0 →
      skillScore sk mcqQ mcq subjQ subj codeQ code = 0) := by
  constructor
  · intro h
    unfold percentage
    rw [h]
    norm_num [round2]
  · intro sk h
    unfold skillScore
    rw [h]
    norm_num

/-- Witness for C10 at the empty assessment: both guards give 0. -/
theorem percentage_division_guards_witness :
    percentage [] [] [] = 0 ∧ skillScore "Python" [] [] [] [] [] [] = 0 := by
  have h := percentage_division_guards [] [] [] [] [] []
  refine ⟨h.1 ?_, h.2 "Python" ?_⟩
  · norm_num [maxTotalScore]
  · norm_num [skillMaxScore]

end Assessment
